import Mathlib

/-!
Shallow embedding of the WebCam-Stream signaling servers.

Two FastAPI variants of the coordinator exist in the repository:
the base variant `src/server.py` and the main variant `src/main/server.py`.
Both keep a global dict `publishers : channel id -> record` where a record
is the mutable dict created at Publish time with keys `pc` (the publisher
RTCPeerConnection), `track` (the relay-subscribed view of the inbound
video track, or None), `viewer_pc` (the at-most-one bound viewer
connection, or None) and `lock` (an asyncio.Lock); the main variant adds
`original_track` (the raw inbound track).  A global set `viewer_pcs`
collects the live viewer connections.

Modelling choices, each traceable to the source:
  * RTCPeerConnection objects are identified by the Nat drawn from a
    `nextPc` counter at their creation; tracks and relay views by Nats
    drawn from `nextTrack` (MediaRelay.subscribe returns a fresh view).
  * The record dicts are mutable objects shared between the endpoint
    bodies and the closures of the handlers they register; we give each
    record an identity equal to its publisher pc (unique, never reassigned)
    and store the records in a heap `recs : List (ConnId × Rec)`, with the
    registry `publishers : List (ChannelId × ConnId)` mapping a channel to
    the record identity.  Heap entries are never removed: a popped record
    object survives in the closures that captured it, exactly as in Python.
  * `pc.close()` is idempotent and never raises; we model it as inserting
    the connection id into a `closed` set.
  * An exception escaping an endpoint or handler is an `Except.error`;
    the Python state reached at the raise point is kept (exceptions do not
    roll state back).  `SrvErr` lists the raised outcomes.
  * SDP negotiation (setRemoteDescription / createAnswer /
    setLocalDescription) either succeeds or raises; a Bool argument
    `negOk` selects which, since its outcome is the engine's.
-/

deriving instance DecidableEq for Except

namespace WebCam

abbrev ConnId := Nat
abbrev TrackId := Nat
abbrev ChannelId := String

/-- Outcomes raised by the handlers: the three HTTPException statuses the
source raises (503, 409, 404) and the uncaught Python exceptions that
escape as HTTP 500 or crash a callback. -/
inductive SrvErr where
  /-- HTTPException 503: no publisher or no publisher track for the target. -/
  | noSuchPublisher
  /-- HTTPException 409: the 1:1 viewer limit. -/
  | viewerSlotTaken
  /-- HTTPException 404: force-unlock on an unknown channel. -/
  | noSuchChannel
  /-- an SDP-processing exception escaping uncaught (HTTP 500). -/
  | negotiationFailure
  /-- UnboundLocalError escaping a callback body. -/
  | unboundLocal
  /-- relay.subscribe(None): dereference of an absent media source. -/
  | noneSubscribe
  deriving DecidableEq, Repr

/-- Association-list lookup (Python `d.get(k)`). -/
def alookup {β : Type} (l : List (ChannelId × β)) (k : ChannelId) : Option β :=
  match l with
  | [] => none
  | (a, b) :: t => if a = k then some b else alookup t k

/-- Association-list write (Python `d[k] = v`). -/
def aset {β : Type} (l : List (ChannelId × β)) (k : ChannelId) (v : β) :
    List (ChannelId × β) :=
  match l with
  | [] => [(k, v)]
  | (a, b) :: t => if a = k then (k, v) :: t else (a, b) :: aset t k v

/-- Association-list removal (Python `d.pop(k, None)`). -/
def aremove {β : Type} (l : List (ChannelId × β)) (k : ChannelId) :
    List (ChannelId × β) :=
  match l with
  | [] => []
  | (a, b) :: t => if a = k then aremove t k else (a, b) :: aremove t k

/-- Heap lookup by record identity (dereferencing the captured dict object). -/
def hlookup {β : Type} (l : List (ConnId × β)) (k : ConnId) : Option β :=
  match l with
  | [] => none
  | (a, b) :: t => if a = k then some b else hlookup t k

/-- Heap write by record identity (mutating the captured dict object). -/
def hset {β : Type} (l : List (ConnId × β)) (k : ConnId) (v : β) :
    List (ConnId × β) :=
  match l with
  | [] => [(k, v)]
  | (a, b) :: t => if a = k then (k, v) :: t else (a, b) :: hset t k v

/-- Set insertion for the `viewer_pcs` / `closed` sets. -/
def sinsert (x : Nat) (l : List Nat) : List Nat :=
  if x ∈ l then l else x :: l

/-- Set removal (Python `set.discard`, a no-op when absent). -/
def sremove (x : Nat) (l : List Nat) : List Nat :=
  l.filter (fun y => y ≠ x)

/-- RTCPeerConnection.connectionState values. -/
inductive ConnState where
  | new | connecting | connected | disconnected | failed | closed
  deriving DecidableEq, Repr

/-- The guard both variants place at the head of every state-change
handler: `pc.connectionState in ("failed", "closed", "disconnected")`. -/
def ConnState.isTerminal : ConnState → Bool
  | .failed => true
  | .closed => true
  | .disconnected => true
  | _ => false

end WebCam

namespace WebCam.Base

/-- One entry of `publishers` in src/server.py (lines 72-77): the dict
with keys "pc", "track", "viewer_pc" ("lock" is modelled by which steps
are atomic, see the step relation below). -/
structure Rec where
  pc : ConnId
  track : Option TrackId
  viewer_pc : Option ConnId
  deriving DecidableEq, Repr

/-- The module-level mutable state of src/server.py: the `publishers`
registry (channel to record identity), the record heap, the `viewer_pcs`
set, the set of connections on which close() was called, and the fresh-id
counters for connections and relay views. -/
structure St where
  publishers : List (ChannelId × ConnId)
  recs : List (ConnId × Rec)
  viewer_pcs : List ConnId
  closed : List ConnId
  nextPc : ConnId
  nextTrack : TrackId
  deriving DecidableEq, Repr

/-- The empty module state at import time. -/
def init : St := ⟨[], [], [], [], 0, 0⟩

/-- POST /publish, src/server.py lines 57-113.  Closes the previous
publisher connection when the id is taken (line 65), creates a fresh
RTCPeerConnection, installs the fresh record (lines 72-77), arms the
handlers (modelled as the separate functions below), then processes the
SDP; a negotiation failure (negOk = false) escapes uncaught, with the
record left installed exactly as the source leaves it. -/
def publish (s : St) (publisher_id : ChannelId) (negOk : Bool) :
    Except SrvErr ConnId × St :=
  let s1 : St :=
    match alookup s.publishers publisher_id with
    | some oldId => { s with closed := sinsert oldId s.closed }
    | none => s
  let pc := s1.nextPc
  let s2 : St :=
    { s1 with
      recs := hset s1.recs pc ⟨pc, none, none⟩,
      publishers := aset s1.publishers publisher_id pc,
      nextPc := s1.nextPc + 1 }
  if negOk then (.ok pc, s2) else (.error .negotiationFailure, s2)

/-- The publisher's connectionstatechange handler, src/server.py lines
81-93, for the record with identity recId (= the closure's pc).  On a
terminal state: compare-and-pop from the registry, close the captured
record's viewer_pc if any, close pc.  Note the handler never writes the
record's fields. -/
def pubOnState (s : St) (publisher_id : ChannelId) (recId : ConnId)
    (st : ConnState) : St :=
  if st.isTerminal then
    let s1 : St :=
      if alookup s.publishers publisher_id = some recId then
        { s with publishers := aremove s.publishers publisher_id }
      else s
    let s2 : St :=
      match hlookup s1.recs recId with
      | some r =>
        match r.viewer_pc with
        | some v => { s1 with closed := sinsert v s1.closed }
        | none => s1
      | none => s1
    { s2 with closed := sinsert recId s2.closed }
  else s

/-- The publisher's track handler for a video track, src/server.py lines
96-100: store a relay-subscribed view of the inbound track in the record.
The fresh view id is drawn from nextTrack. -/
def on_track (s : St) (recId : ConnId) : St :=
  match hlookup s.recs recId with
  | some r =>
    { s with
      recs := hset s.recs recId { r with track := some s.nextTrack },
      nextTrack := s.nextTrack + 1 }
  | none => s

/-- The body executed under `async with pub["lock"]` in src/server.py
lines 125-132, as a function of the slot it reads: raise 409 when the
slot is occupied, otherwise claim it for the fresh connection pc.  The
body contains no await, so it runs atomically on the event loop. -/
def viewerLockBody (slot : Option ConnId) (pc : ConnId) :
    Except SrvErr (Option ConnId) :=
  match slot with
  | some _ => .error .viewerSlotTaken
  | none => .ok (some pc)

/-- POST /viewer, src/server.py lines 115-164, run to completion.  The
pre-check (lines 118-122) raises 503 when the target or its track is
absent; the lock body checks and reserves the slot; afterwards the stored
relay view `pub["track"]` (line 156) — not a fresh subscription — is
attached, and the SDP is processed.  Returns the viewer pc and the
attached view id on success. -/
def viewer (s : St) (target : ChannelId) (negOk : Bool) :
    Except SrvErr (ConnId × TrackId) × St :=
  match alookup s.publishers target with
  | none => (.error .noSuchPublisher, s)
  | some recId =>
    match hlookup s.recs recId with
    | none => (.error .noSuchPublisher, s)
    | some pub =>
      match pub.track with
      | none => (.error .noSuchPublisher, s)
      | some tr =>
        match viewerLockBody pub.viewer_pc s.nextPc with
        | .error e => (.error e, s)
        | .ok slot =>
          let pc := s.nextPc
          let s1 : St :=
            { s with
              nextPc := s.nextPc + 1,
              viewer_pcs := sinsert pc s.viewer_pcs,
              recs := hset s.recs recId { pub with viewer_pc := slot } }
          if negOk then (.ok (pc, tr), s1) else (.error .negotiationFailure, s1)

/-- The viewer's connectionstatechange handler, src/server.py lines
142-153: on a terminal state, discard from viewer_pcs, then under the
lock clear the record's viewer_pc only if it still is this pc, then close
the pc. -/
def viewerOnState (s : St) (recId : ConnId) (pc : ConnId) (st : ConnState) : St :=
  if st.isTerminal then
    let s1 : St := { s with viewer_pcs := sremove pc s.viewer_pcs }
    let s2 : St :=
      match hlookup s1.recs recId with
      | some r =>
        if r.viewer_pc = some pc then
          { s1 with recs := hset s1.recs recId { r with viewer_pc := none } }
        else s1
      | none => s1
    { s2 with closed := sinsert pc s2.closed }
  else s

end WebCam.Base

namespace WebCam.Main

/-- One entry of `publishers` in src/main/server.py (lines 74-80): the
dict with keys "pc", "track", "original_track", "viewer_pc" ("lock" is
modelled by which steps are atomic). -/
structure Rec where
  pc : ConnId
  track : Option TrackId
  original_track : Option TrackId
  viewer_pc : Option ConnId
  deriving DecidableEq, Repr

/-- The module-level mutable state of src/main/server.py; as in the base
variant, plus the set of relay views / tracks on which stop() was called. -/
structure St where
  publishers : List (ChannelId × ConnId)
  recs : List (ConnId × Rec)
  viewer_pcs : List ConnId
  closed : List ConnId
  stopped : List TrackId
  nextPc : ConnId
  nextTrack : TrackId
  deriving DecidableEq, Repr

/-- The empty module state at import time. -/
def init : St := ⟨[], [], [], [], [], 0, 0⟩

/-- POST /publish, src/main/server.py lines 59-159.  Unlike the base
variant, the stale entry is also popped (line 69) before the fresh record
is installed (lines 74-80); close failures are swallowed by the
try/except.  Negotiation failure escapes uncaught with the fresh record
left installed. -/
def publish (s : St) (publisher_id : ChannelId) (negOk : Bool) :
    Except SrvErr ConnId × St :=
  let s1 : St :=
    match alookup s.publishers publisher_id with
    | some oldId =>
      { s with
        closed := sinsert oldId s.closed,
        publishers := aremove s.publishers publisher_id }
    | none => s
  let pc := s1.nextPc
  let s2 : St :=
    { s1 with
      recs := hset s1.recs pc ⟨pc, none, none, none⟩,
      publishers := aset s1.publishers publisher_id pc,
      nextPc := s1.nextPc + 1 }
  if negOk then (.ok pc, s2) else (.error .negotiationFailure, s2)

/-- The publisher's connectionstatechange handler, src/main/server.py
lines 109-137.  On a terminal state the body runs
`if publishers.get(publisher_id, dict()).get("pc") is pc:
pub = publishers.pop(publisher_id, None)` — the assignment makes `pub`
a local of on_state, so when the comparison is false the subsequent
`if pub:` (line 116) raises UnboundLocalError and the trailing
`await pc.close()` (line 137) is never reached.  When the comparison
holds, the popped record's viewer is closed, its relay view and raw
track are stopped and cleared, and pc is closed. -/
def pubOnState (s : St) (publisher_id : ChannelId) (recId : ConnId)
    (st : ConnState) : Except SrvErr Unit × St :=
  if st.isTerminal then
    if alookup s.publishers publisher_id = some recId then
      let s1 : St := { s with publishers := aremove s.publishers publisher_id }
      match hlookup s1.recs recId with
      | some r =>
        let s2 : St :=
          match r.viewer_pc with
          | some v => { s1 with closed := sinsert v s1.closed }
          | none => s1
        let s3 : St :=
          match r.track with
          | some t => { s2 with stopped := sinsert t s2.stopped }
          | none => s2
        let s4 : St :=
          match r.original_track with
          | some t => { s3 with stopped := sinsert t s3.stopped }
          | none => s3
        let s5 : St :=
          { s4 with
            recs := hset s4.recs recId { r with track := none, original_track := none } }
        (.ok (), { s5 with closed := sinsert recId s5.closed })
      | none => (.ok (), { s1 with closed := sinsert recId s1.closed })
    else
      (.error .unboundLocal, s)
  else (.ok (), s)

/-- The publisher's track handler for a video track, src/main/server.py
lines 139-144: store the raw inbound track in original_track and a
relay-subscribed view of it in track.  The raw track id and the fresh
view id are both drawn from nextTrack. -/
def on_track (s : St) (recId : ConnId) : St :=
  match hlookup s.recs recId with
  | some r =>
    { s with
      recs := hset s.recs recId
        { r with original_track := some s.nextTrack, track := some (s.nextTrack + 1) },
      nextTrack := s.nextTrack + 2 }
  | none => s

/-- The track's ended handler, src/main/server.py lines 146-152: clears
both track and original_track unconditionally (the compare-before-clear
of the base variant is commented out here). -/
def on_ended (s : St) (recId : ConnId) : St :=
  match hlookup s.recs recId with
  | some r =>
    { s with recs := hset s.recs recId { r with track := none, original_track := none } }
  | none => s

/-- The pre-lock check of POST /viewer, src/main/server.py lines 167-171:
look the target up and require a non-empty track, raising 503 otherwise.
Returns the record identity the endpoint's `pub` now references.  This is
the only place the endpoint checks the media's presence. -/
def viewerPre (s : St) (target : ChannelId) : Option ConnId :=
  match alookup s.publishers target with
  | none => none
  | some recId =>
    match hlookup s.recs recId with
    | none => none
    | some r => if r.track = none then none else some recId

/-- The body executed under `async with pub["lock"]` in src/main/server.py
lines 173-179: raise 409 when the slot is occupied, otherwise create the
viewer pc, add it to viewer_pcs and reserve the slot.  The body contains
no await, so it runs atomically; acquiring the contended lock, however,
is a suspension point.  The media's presence is not re-checked here. -/
def viewerReserve (s : St) (recId : ConnId) : Except SrvErr ConnId × St :=
  match hlookup s.recs recId with
  | none => (.error .noSuchPublisher, s)
  | some r =>
    match r.viewer_pc with
    | some _ => (.error .viewerSlotTaken, s)
    | none =>
      let pc := s.nextPc
      (.ok pc,
        { s with
          nextPc := s.nextPc + 1,
          viewer_pcs := sinsert pc s.viewer_pcs,
          recs := hset s.recs recId { r with viewer_pc := some pc } })

/-- The post-lock part of POST /viewer, src/main/server.py lines 204-218:
subscribe a fresh relay view of `pub["original_track"]` (line 209) —
when the raw track was cleared in the meantime this dereferences None and
the endpoint raises without releasing the reserved slot — store it in
`pub["track"]`, attach it, and process the SDP.  Returns the attached
fresh view id on success. -/
def viewerAttach (s : St) (recId : ConnId) (negOk : Bool) :
    Except SrvErr TrackId × St :=
  match hlookup s.recs recId with
  | none => (.error .noneSubscribe, s)
  | some r =>
    match r.original_track with
    | none => (.error .noneSubscribe, s)
    | some _ =>
      let tv := s.nextTrack
      let s1 : St :=
        { s with
          nextTrack := s.nextTrack + 1,
          recs := hset s.recs recId { r with track := some tv } }
      if negOk then (.ok tv, s1) else (.error .negotiationFailure, s1)

/-- POST /viewer, src/main/server.py lines 165-218, run to completion
with no interleaved callbacks: the pre-check, the lock body, then the
attach and SDP processing. -/
def viewer (s : St) (target : ChannelId) (negOk : Bool) :
    Except SrvErr (ConnId × TrackId) × St :=
  match viewerPre s target with
  | none => (.error .noSuchPublisher, s)
  | some recId =>
    match viewerReserve s recId with
    | (.error e, s1) => (.error e, s1)
    | (.ok pc, s1) =>
      match viewerAttach s1 recId negOk with
      | (.error e, s2) => (.error e, s2)
      | (.ok tv, s2) => (.ok (pc, tv), s2)

/-- The viewer's connectionstatechange handler, src/main/server.py lines
183-202: identical in effect to the base variant's. -/
def viewerOnState (s : St) (recId : ConnId) (pc : ConnId) (st : ConnState) : St :=
  if st.isTerminal then
    let s1 : St := { s with viewer_pcs := sremove pc s.viewer_pcs }
    let s2 : St :=
      match hlookup s1.recs recId with
      | some r =>
        if r.viewer_pc = some pc then
          { s1 with recs := hset s1.recs recId { r with viewer_pc := none } }
        else s1
      | none => s1
    { s2 with closed := sinsert pc s2.closed }
  else s

/-- POST /force_unlock, src/main/server.py lines 244-262: 404 on an
unknown channel; otherwise, under the record's lock, close the bound
viewer if any (awaited while the lock is held), discard it from
viewer_pcs, and clear the slot.  The publisher pc and both track fields
are untouched ("if publisher alive, relay do not stop"). -/
def force_unlock (s : St) (target : ChannelId) : Except SrvErr Unit × St :=
  match alookup s.publishers target with
  | none => (.error .noSuchChannel, s)
  | some recId =>
    match hlookup s.recs recId with
    | none => (.error .noSuchChannel, s)
    | some r =>
      let s1 : St :=
        match r.viewer_pc with
        | some v =>
          { s with
            closed := sinsert v s.closed,
            viewer_pcs := sremove v s.viewer_pcs }
        | none => s
      (.ok (), { s1 with recs := hset s1.recs recId { r with viewer_pc := none } })

end WebCam.Main

namespace WebCam.Base

/-- The pre-check condition of POST /viewer, src/server.py lines 118-122,
as the spec words it: there is no publisher record for the target, or the
record's media source is empty (`not pub or not pub.get("track")`). -/
def noMedia (s : St) (target : ChannelId) : Bool :=
  match alookup s.publishers target with
  | none => true
  | some recId =>
    match hlookup s.recs recId with
    | none => true
    | some r => r.track.isNone

end WebCam.Base

namespace WebCam.Base

/-- Scenario fixture: the module state after a successful
Publish("cam") — record 0 installed, no media yet. -/
def s_pub : St := (publish init "cam" true).2

/-- Scenario fixture: after the publisher's video track arrives —
relay view 0 stored in record 0. -/
def s_track : St := on_track s_pub 0

/-- Scenario fixture: after a successful ViewerConnect("cam") — viewer
connection 1 bound to record 0's slot. -/
def s_view : St := (viewer s_track "cam" true).2

/-- Scenario fixture: after the bound viewer 1 reports a terminal state —
slot cleared, viewer 1 closed, relay view 0 still stored. -/
def s_clear : St := viewerOnState s_view 0 1 .closed

/-- Abstract state of a family of concurrent POST /viewer requests for
one channel of src/server.py: the record's viewer slot, how many requests
have not yet executed the lock body, and how many have installed their
connection into the slot.  The lock body (lines 125-132) contains no
await, so it executes atomically on the event loop, and it is the only
code a /viewer request runs that writes the slot: an arbitrary
interleaving of concurrent requests is therefore a sequence of lock-body
executions. -/
structure RaceSt where
  slot : Option ConnId
  nStart : Nat
  nReserved : Nat
  deriving DecidableEq, Repr

/-- One pending request executes the atomic lock body, with the outcome
given by viewerLockBody on the current slot. -/
inductive RaceStep : RaceSt → RaceSt → Prop where
  | reserve (r : RaceSt) (pc : ConnId) (slot2 : Option ConnId)
      (hs : 0 < r.nStart) (hb : viewerLockBody r.slot pc = .ok slot2) :
      RaceStep r ⟨slot2, r.nStart - 1, r.nReserved + 1⟩
  | reject (r : RaceSt) (pc : ConnId) (e : SrvErr)
      (hs : 0 < r.nStart) (hb : viewerLockBody r.slot pc = .error e) :
      RaceStep r ⟨r.slot, r.nStart - 1, r.nReserved⟩

/-- Race invariant: an empty slot means nobody has installed, and at most
one request ever installs. -/
def RaceInv (r : RaceSt) : Prop :=
  (r.slot = none → r.nReserved = 0) ∧ r.nReserved ≤ 1

end WebCam.Base

namespace WebCam.Main

/-- Scenario fixture: the module state after a successful
Publish("cam") — record 0 installed, no media yet. -/
def s_pub : St := (publish init "cam" true).2

/-- Scenario fixture: after the publisher's video track arrives — raw
track 0 and relay view 1 stored in record 0. -/
def s_track : St := on_track s_pub 0

/-- Scenario fixture: after publisher 0's first terminal state-change
delivery on s_track. -/
def s_dead : St := (pubOnState s_track "cam" 0 .failed).2

/-- Scenario fixture: the publisher's track ends after s_track — both
media fields cleared. -/
def s_ended : St := on_ended s_track 0

end WebCam.Main

namespace WebCam

/-- One maximal atomic segment of a coordinator code path: whether the
record's lock is held during it, whether it contains an await (a
suspension point of the event loop), and whether it reads or writes the
record's viewer slot (viewer_pc) or its media fields (track,
original_track).  Each list below is transcribed segment by segment from
the cited lines of the source. -/
structure Seg where
  lockHeld : Bool
  suspends : Bool
  touchesSlot : Bool
  touchesMedia : Bool
  deriving DecidableEq, Repr

/-- A segment that awaits while the record's lock is held. -/
def Seg.lockedSuspend (g : Seg) : Bool := g.lockHeld && g.suspends

/-- A segment that touches a guarded mutable record field without the
record's lock. -/
def Seg.unguarded (g : Seg) : Bool := !g.lockHeld && (g.touchesSlot || g.touchesMedia)

end WebCam

namespace WebCam.Base

/-- POST /publish, src/server.py lines 62-111: close the stale publisher
connection (await, no lock, line 65); build and install the fresh record
and arm the handlers (sync, lines 67-107); SDP processing (awaits, lines
109-111). -/
def publishSegs : List Seg :=
  [⟨false, true, false, false⟩, ⟨false, false, false, false⟩, ⟨false, true, false, false⟩]

/-- POST /viewer, src/server.py lines 118-162: the pre-check reads
pub["track"] with no lock (lines 118-122); the lock body checks and
writes viewer_pc with no await inside (lines 125-132); the attach reads
pub["track"] with no lock and the SDP processing awaits (lines 156-162). -/
def viewerSegs : List Seg :=
  [⟨false, false, false, true⟩, ⟨true, false, true, false⟩, ⟨false, true, false, true⟩]

/-- The publisher's state-change handler, src/server.py lines 83-93: the
compare-and-pop and the read of pub["viewer_pc"] take no lock (lines
85-90); the closes await with no lock (lines 91-93). -/
def pubOnStateSegs : List Seg :=
  [⟨false, false, true, false⟩, ⟨false, true, false, false⟩]

/-- The publisher's track handler, src/server.py lines 97-100: writes
pub["track"] with no lock. -/
def onTrackSegs : List Seg :=
  [⟨false, false, false, true⟩]

/-- The viewer's state-change handler, src/server.py lines 143-153: the
discard (line 147); the lock body compare-and-clear with no await inside
(lines 150-152); the close awaits with no lock (line 153). -/
def viewerOnStateSegs : List Seg :=
  [⟨false, false, false, false⟩, ⟨true, false, true, false⟩, ⟨false, true, false, false⟩]

end WebCam.Base

namespace WebCam.Main

/-- POST /viewer, src/main/server.py lines 167-218: the pre-check reads
pub["track"] with no lock (lines 167-171); the lock body checks and
writes viewer_pc with no await inside (lines 173-179); the attach reads
pub["original_track"], writes pub["track"] with no lock, and the SDP
processing awaits (lines 209-217). -/
def viewerSegs : List Seg :=
  [⟨false, false, false, true⟩, ⟨true, false, true, false⟩, ⟨false, true, false, true⟩]

/-- POST /force_unlock, src/main/server.py lines 246-256: the lookup
(lines 246-248); then, inside `async with pub["lock"]`, the read of
pub["viewer_pc"] and the awaited close of the viewer connection (lines
250-254) — an await executed while the record's lock is held — and the
clear of the slot (line 256). -/
def forceUnlockSegs : List Seg :=
  [⟨false, false, false, false⟩, ⟨true, true, true, false⟩, ⟨true, false, true, false⟩]

/-- The publisher's track handler, src/main/server.py lines 140-144:
writes pub["original_track"] and pub["track"] with no lock. -/
def onTrackSegs : List Seg :=
  [⟨false, false, false, true⟩]

/-- Scenario fixture: the state after a successful ViewerConnect("cam")
on s_track — viewer 1 bound, fresh relay view 2 attached. -/
def s_viewed : St := (viewer s_track "cam" true).2

/-- Scenario fixture: a second Publish("cam") on s_viewed — the old
record 0 (viewer 1 still bound to it) is popped and replaced by the
fresh record 2; viewer 1 is not closed by the publish. -/
def s_repub : St := (publish s_viewed "cam" true).2

/-- A track field is strictly below the fresh-id counter. -/
def trackBelow (o : Option TrackId) (n : TrackId) : Bool :=
  match o with
  | none => true
  | some t => t < n

/-- Every track id stored in a record is strictly below the nextTrack
counter (true of every state the operations produce, since ids are only
drawn from the counter). -/
def tracksBelow (s : St) : Bool :=
  s.recs.all fun p =>
    trackBelow p.2.track s.nextTrack && trackBelow p.2.original_track s.nextTrack

end WebCam.Main

namespace WebCam

theorem alookup_aset_self {β : Type} (l : List (ChannelId × β)) (k : ChannelId) (v : β) :
    alookup (aset l k v) k = some v := by
  induction l with
  | nil => simp [aset, alookup]
  | cons p t ih =>
    obtain ⟨a, b⟩ := p
    by_cases h : a = k
    · simp [aset, alookup, h]
    · simp [aset, alookup, h, ih]

theorem alookup_aset_ne {β : Type} (l : List (ChannelId × β)) (k c : ChannelId) (v : β)
    (h : c ≠ k) : alookup (aset l k v) c = alookup l c := by
  have hkc : ¬(k = c) := fun e => h e.symm
  induction l with
  | nil => simp [aset, alookup, hkc]
  | cons p t ih =>
    obtain ⟨a, b⟩ := p
    by_cases ha : a = k
    · simp [aset, alookup, ha, hkc]
    · by_cases hc : a = c <;> simp [aset, alookup, ha, hc, h, hkc, ih]

theorem alookup_aremove_self {β : Type} (l : List (ChannelId × β)) (k : ChannelId) :
    alookup (aremove l k) k = none := by
  induction l with
  | nil => rfl
  | cons p t ih =>
    obtain ⟨a, b⟩ := p
    by_cases h : a = k
    · simpa [aremove, h] using ih
    · simp [aremove, alookup, h, ih]

theorem alookup_aremove_ne {β : Type} (l : List (ChannelId × β)) (k c : ChannelId)
    (h : c ≠ k) : alookup (aremove l k) c = alookup l c := by
  have hkc : ¬(k = c) := fun e => h e.symm
  induction l with
  | nil => rfl
  | cons p t ih =>
    obtain ⟨a, b⟩ := p
    by_cases ha : a = k
    · simp [aremove, alookup, ha, hkc, ih]
    · by_cases hc : a = c <;> simp [aremove, alookup, ha, hc, h, hkc, ih]

theorem hlookup_hset_self {β : Type} (l : List (ConnId × β)) (k : ConnId) (v : β) :
    hlookup (hset l k v) k = some v := by
  induction l with
  | nil => simp [hset, hlookup]
  | cons p t ih =>
    obtain ⟨a, b⟩ := p
    by_cases h : a = k
    · simp [hset, hlookup, h]
    · simp [hset, hlookup, h, ih]

theorem hlookup_hset_ne {β : Type} (l : List (ConnId × β)) (k c : ConnId) (v : β)
    (h : c ≠ k) : hlookup (hset l k v) c = hlookup l c := by
  have hkc : ¬(k = c) := fun e => h e.symm
  induction l with
  | nil => simp [hset, hlookup, hkc]
  | cons p t ih =>
    obtain ⟨a, b⟩ := p
    by_cases ha : a = k
    · simp [hset, hlookup, ha, hkc]
    · by_cases hc : a = c <;> simp [hset, hlookup, ha, hc, h, hkc, ih]

theorem mem_sinsert_self (x : Nat) (l : List Nat) : x ∈ sinsert x l := by
  unfold sinsert
  split
  · assumption
  · exact List.mem_cons_self x l

theorem mem_sinsert_of_mem {y : Nat} (x : Nat) {l : List Nat} (h : y ∈ l) :
    y ∈ sinsert x l := by
  unfold sinsert
  split
  · exact h
  · exact List.mem_cons_of_mem x h

theorem hlookup_mem {β : Type} {l : List (ConnId × β)} {k : ConnId} {v : β}
    (h : hlookup l k = some v) : (k, v) ∈ l := by
  induction l with
  | nil => simp [hlookup] at h
  | cons p t ih =>
    obtain ⟨a, b⟩ := p
    by_cases ha : a = k
    · simp [hlookup, ha] at h
      simp [ha, h]
    · simp [hlookup, ha] at h
      exact List.mem_cons_of_mem _ (ih h)

end WebCam

namespace WebCam.Base

theorem raceInv_step {r r2 : RaceSt} (h : RaceStep r r2) (hi : RaceInv r) :
    RaceInv r2 := by
  cases h with
  | reserve pc slot2 hs hb =>
    cases hslot : r.slot with
    | none =>
      have h0 : r.nReserved = 0 := hi.1 hslot
      have h2 : slot2 = some pc := by
        rw [hslot] at hb
        simpa [viewerLockBody] using hb.symm
      exact ⟨fun hc => by simp [h2] at hc, by simp [h0]⟩
    | some v =>
      rw [hslot] at hb
      simp [viewerLockBody] at hb
  | reject pc e hs hb =>
    exact ⟨fun hc => hi.1 hc, hi.2⟩

theorem raceInv_reach {r r2 : RaceSt}
    (h : Relation.ReflTransGen RaceStep r r2) (hi : RaceInv r) : RaceInv r2 := by
  induction h with
  | refl => exact hi
  | tail _ hstep ih => exact raceInv_step hstep ih

end WebCam.Base

namespace WebCam.Main

theorem reserve_nextTrack (s : St) (recId : ConnId) :
    (viewerReserve s recId).2.nextTrack = s.nextTrack := by
  unfold viewerReserve
  cases h : hlookup s.recs recId with
  | none => rfl
  | some r => cases hv : r.viewer_pc <;> simp [hv]

theorem attach_ok_fresh {s : St} {recId : ConnId} {negOk : Bool} {tv : TrackId}
    {s2 : St} (h : viewerAttach s recId negOk = (.ok tv, s2)) : tv = s.nextTrack := by
  unfold viewerAttach at h
  cases h1 : hlookup s.recs recId with
  | none => rw [h1] at h; simp at h
  | some r =>
    rw [h1] at h
    cases h2 : r.original_track with
    | none => simp [h2] at h
    | some t0 =>
      cases negOk with
      | false => simp [h2] at h
      | true =>
        simp [h2] at h
        exact h.1.symm

theorem pubOnState_pop {s : St} {pid : ChannelId} {recId : ConnId} {r : Rec}
    {st : ConnState} (ht : st.isTerminal = true)
    (hr : hlookup s.recs recId = some r)
    (hc : alookup s.publishers pid = some recId) :
    pubOnState s pid recId st =
      (.ok (), { s with
        publishers := aremove s.publishers pid,
        recs := hset s.recs recId { r with track := none, original_track := none },
        closed := sinsert recId (match r.viewer_pc with
          | some v => sinsert v s.closed
          | none => s.closed),
        stopped := (match r.original_track with
          | some t0 => sinsert t0 (match r.track with
              | some t1 => sinsert t1 s.stopped
              | none => s.stopped)
          | none => (match r.track with
              | some t1 => sinsert t1 s.stopped
              | none => s.stopped)) }) := by
  cases hv : r.viewer_pc <;> cases htk : r.track <;> cases ho : r.original_track <;>
    simp [pubOnState, ht, hc, hr, hv, htk, ho]

theorem viewer_no_conflict (s : St) (target : ChannelId) (negOk : Bool)
    (recId : ConnId) (r : Rec)
    (h1 : alookup s.publishers target = some recId)
    (h2 : hlookup s.recs recId = some r)
    (h3 : r.viewer_pc = none) :
    (viewer s target negOk).1 ≠ .error .viewerSlotTaken := by
  cases htr : r.track with
  | none => simp [viewer, viewerPre, h1, h2, htr]
  | some tr =>
    cases ho : r.original_track with
    | none =>
      simp [viewer, viewerPre, viewerReserve, viewerAttach, h1, h2, h3, htr, ho,
        hlookup_hset_self]
    | some t0 =>
      cases negOk <;>
        simp [viewer, viewerPre, viewerReserve, viewerAttach, h1, h2, h3, htr, ho,
          hlookup_hset_self]

end WebCam.Main

namespace WebCam

theorem mem_sinsert_iff (x y : Nat) (l : List Nat) :
    y ∈ sinsert x l ↔ y = x ∨ y ∈ l := by
  unfold sinsert
  split
  · constructor
    · exact fun h => Or.inr h
    · rintro (rfl | h)
      · assumption
      · assumption
  · exact List.mem_cons

/-- C1: for any channel at most one connection is held as the active
viewer.  First part: when POST /viewer of src/server.py finds the
record's viewer slot occupied (the pre-check on the track having passed),
it raises 409 ViewerSlotTaken and the module state is returned unchanged.
Second part: under any interleaving of concurrent /viewer requests for
the same channel — a sequence of executions of the atomic lock body,
which contains no await and is the only slot-writing code of the request
— at most one request installs its connection into the slot. -/
theorem viewer_slot_exclusive :
    (∀ (s : Base.St) (target : ChannelId) (negOk : Bool) (recId : ConnId)
        (pub : Base.Rec) (tr : TrackId) (v : ConnId),
        alookup s.publishers target = some recId →
        hlookup s.recs recId = some pub →
        pub.track = some tr →
        pub.viewer_pc = some v →
        Base.viewer s target negOk = (.error .viewerSlotTaken, s)) ∧
    (∀ (n : Nat) (r : Base.RaceSt),
        Relation.ReflTransGen Base.RaceStep ⟨none, n, 0⟩ r →
        r.nReserved ≤ 1) := by
  constructor
  · intro s target negOk recId pub tr v h1 h2 h3 h4
    simp [Base.viewer, h1, h2, h3, h4, Base.viewerLockBody]
  · intro n r h
    exact (Base.raceInv_reach h ⟨fun _ => rfl, by simp⟩).2

/-- Witness for C1 at concrete inputs: on the fixture where viewer 1
occupies channel cam's slot, a further /viewer request is rejected 409
with the state unchanged; and after the concrete two-request race trace
(one reserve, one reject) exactly one install has happened. -/
theorem viewer_slot_exclusive_witness :
    Base.viewer Base.s_view "cam" true = (.error .viewerSlotTaken, Base.s_view) ∧
    (⟨some 0, 0, 1⟩ : Base.RaceSt).nReserved ≤ 1 := by
  constructor
  · exact viewer_slot_exclusive.1 Base.s_view "cam" true 0 ⟨0, some 0, some 1⟩ 0 1
      (by decide) (by decide) rfl rfl
  · exact viewer_slot_exclusive.2 2 ⟨some 0, 0, 1⟩
      (Relation.ReflTransGen.tail
        (Relation.ReflTransGen.tail Relation.ReflTransGen.refl
          (Base.RaceStep.reserve ⟨none, 2, 0⟩ 0 (some 0) (by decide) rfl))
        (Base.RaceStep.reject ⟨some 0, 1, 1⟩ 1 .viewerSlotTaken (by decide) rfl))

/-- C2 counterexample: in src/server.py, after publisher 0 of channel cam
(viewer 1 bound) delivers a terminal state, the handler has run, yet the
record's viewer field still references connection 1: the handler does not
clear the record's viewer fields, refuting that part of the claim. -/
theorem pub_teardown_keeps_slot_cex :
    (hlookup (Base.pubOnState Base.s_view "cam" 0 .failed).recs 0).map
      Base.Rec.viewer_pc = some (some 1) := by decide

/-- C2 amended: on a terminal state of a publisher connection, neither
variant's handler clears the record's viewer fields.  In src/server.py
the handler removes the channel's registry entry by compare-and-remove,
closes the bound viewer connection if one exists and the publisher
connection itself, and leaves the record's fields unchanged (the viewer
fields are cleared only by the viewer connection's own handler); other
channels are unaffected.  In src/main/server.py the handler removes the
entry and closes the bound viewer and the publisher (also stopping and
clearing the track fields, still not the viewer field) only when the
registry compare succeeds; when the compare fails — for example after a
re-Publish has replaced the record — it crashes with UnboundLocalError
at `if pub:` before closing anything, leaving the state unchanged, so a
viewer bound to a replaced publisher's record is not closed by this
handler. -/
theorem pub_teardown_amended :
    (∀ (s : Base.St) (pid : ChannelId) (recId : ConnId) (r : Base.Rec) (st : ConnState),
      st.isTerminal = true →
      hlookup s.recs recId = some r →
      (alookup s.publishers pid = some recId →
        alookup (Base.pubOnState s pid recId st).publishers pid = none) ∧
      (∀ v, r.viewer_pc = some v → v ∈ (Base.pubOnState s pid recId st).closed) ∧
      recId ∈ (Base.pubOnState s pid recId st).closed ∧
      (Base.pubOnState s pid recId st).recs = s.recs ∧
      (∀ c, c ≠ pid → alookup (Base.pubOnState s pid recId st).publishers c =
        alookup s.publishers c)) ∧
    (∀ (s : Main.St) (pid : ChannelId) (recId : ConnId) (r : Main.Rec) (st : ConnState),
      st.isTerminal = true →
      hlookup s.recs recId = some r →
      (alookup s.publishers pid = some recId →
        (Main.pubOnState s pid recId st).1 = .ok () ∧
        alookup (Main.pubOnState s pid recId st).2.publishers pid = none ∧
        (∀ v, r.viewer_pc = some v → v ∈ (Main.pubOnState s pid recId st).2.closed) ∧
        recId ∈ (Main.pubOnState s pid recId st).2.closed ∧
        (hlookup (Main.pubOnState s pid recId st).2.recs recId).map Main.Rec.viewer_pc =
          some r.viewer_pc) ∧
      (¬(alookup s.publishers pid = some recId) →
        Main.pubOnState s pid recId st = (.error .unboundLocal, s))) := by
  refine ⟨?_, ?_⟩
  case refine_2 =>
    intro s pid recId r st ht hr
    constructor
    · intro hc
      rw [Main.pubOnState_pop ht hr hc]
      refine ⟨rfl, alookup_aremove_self _ _, ?_, mem_sinsert_self _ _, ?_⟩
      · intro v hv
        rw [hv]
        exact mem_sinsert_of_mem _ (mem_sinsert_self v _)
      · rw [hlookup_hset_self]
        rfl
    · intro hc
      simp [Main.pubOnState, ht, hc]
  intro s pid recId r st ht hr
  have hclosed : ∀ v, r.viewer_pc = some v →
      v ∈ sinsert recId (match r.viewer_pc with
        | some v0 => sinsert v0 s.closed
        | none => s.closed) := by
    intro v hv
    rw [hv]
    exact mem_sinsert_of_mem _ (mem_sinsert_self v _)
  by_cases hc : alookup s.publishers pid = some recId
  · have hstep : Base.pubOnState s pid recId st =
        { s with
          publishers := aremove s.publishers pid,
          closed := sinsert recId (match r.viewer_pc with
            | some v0 => sinsert v0 s.closed
            | none => s.closed) } := by
      cases hv : r.viewer_pc <;> simp [Base.pubOnState, ht, hc, hr, hv]
    rw [hstep]
    exact ⟨fun _ => alookup_aremove_self _ _, hclosed, mem_sinsert_self recId _,
      rfl, fun c hcp => alookup_aremove_ne _ _ _ hcp⟩
  · have hstep : Base.pubOnState s pid recId st =
        { s with
          closed := sinsert recId (match r.viewer_pc with
            | some v0 => sinsert v0 s.closed
            | none => s.closed) } := by
      cases hv : r.viewer_pc <;> simp [Base.pubOnState, ht, hc, hr, hv]
    rw [hstep]
    exact ⟨fun h2 => absurd h2 hc, hclosed, mem_sinsert_self recId _,
      rfl, fun c hcp => rfl⟩

/-- Witness for C2's amended theorem at three concrete inputs: the base
fixture (channel cam, record 0 with viewer 1 bound, terminal failed),
the main fixture s_track (compare succeeds, the success branch is live),
and the main fixture s_repub after a re-Publish (the registry maps cam
to record 2, so the compare for record 0 fails and the crash branch is
live). -/
theorem pub_teardown_amended_witness :
    ((alookup Base.s_view.publishers "cam" = some 0 →
      alookup (Base.pubOnState Base.s_view "cam" 0 .failed).publishers "cam" = none) ∧
     (∀ v, (⟨0, some 0, some 1⟩ : Base.Rec).viewer_pc = some v →
       v ∈ (Base.pubOnState Base.s_view "cam" 0 .failed).closed) ∧
     0 ∈ (Base.pubOnState Base.s_view "cam" 0 .failed).closed ∧
     (Base.pubOnState Base.s_view "cam" 0 .failed).recs = Base.s_view.recs ∧
     (∀ c, c ≠ "cam" →
       alookup (Base.pubOnState Base.s_view "cam" 0 .failed).publishers c =
         alookup Base.s_view.publishers c)) ∧
    ((alookup Main.s_track.publishers "cam" = some 0 →
      (Main.pubOnState Main.s_track "cam" 0 .failed).1 = .ok () ∧
      alookup (Main.pubOnState Main.s_track "cam" 0 .failed).2.publishers "cam" = none ∧
      (∀ v, (⟨0, some 1, some 0, none⟩ : Main.Rec).viewer_pc = some v →
        v ∈ (Main.pubOnState Main.s_track "cam" 0 .failed).2.closed) ∧
      0 ∈ (Main.pubOnState Main.s_track "cam" 0 .failed).2.closed ∧
      (hlookup (Main.pubOnState Main.s_track "cam" 0 .failed).2.recs 0).map
        Main.Rec.viewer_pc = some none) ∧
     (¬(alookup Main.s_track.publishers "cam" = some 0) →
       Main.pubOnState Main.s_track "cam" 0 .failed =
         (.error .unboundLocal, Main.s_track))) ∧
    ((alookup Main.s_repub.publishers "cam" = some 0 →
      (Main.pubOnState Main.s_repub "cam" 0 .closed).1 = .ok () ∧
      alookup (Main.pubOnState Main.s_repub "cam" 0 .closed).2.publishers "cam" = none ∧
      (∀ v, (⟨0, some 2, some 0, some 1⟩ : Main.Rec).viewer_pc = some v →
        v ∈ (Main.pubOnState Main.s_repub "cam" 0 .closed).2.closed) ∧
      0 ∈ (Main.pubOnState Main.s_repub "cam" 0 .closed).2.closed ∧
      (hlookup (Main.pubOnState Main.s_repub "cam" 0 .closed).2.recs 0).map
        Main.Rec.viewer_pc = some (some 1)) ∧
     (¬(alookup Main.s_repub.publishers "cam" = some 0) →
       Main.pubOnState Main.s_repub "cam" 0 .closed =
         (.error .unboundLocal, Main.s_repub))) :=
  ⟨pub_teardown_amended.1 Base.s_view "cam" 0 ⟨0, some 0, some 1⟩ .failed rfl (by decide),
   pub_teardown_amended.2 Main.s_track "cam" 0 ⟨0, some 1, some 0, none⟩ .failed rfl
     (by decide),
   pub_teardown_amended.2 Main.s_repub "cam" 0 ⟨0, some 2, some 0, some 1⟩ .closed rfl
     (by decide)⟩

/-- C3 counterexample: on the fixture where channel cam has publisher 0
with bound viewer 1, a second Publish("cam") succeeds (connection 2),
closes the old publisher 0 and installs the fresh record — but viewer 1
is not closed by the Publish operation, refuting the claim that Publish
closes the bound viewer connection before installing the fresh record. -/
theorem publish_replace_cex :
    (Base.publish Base.s_view "cam" true).1 = .ok 2 ∧
    alookup (Base.publish Base.s_view "cam" true).2.publishers "cam" = some 2 ∧
    0 ∈ (Base.publish Base.s_view "cam" true).2.closed ∧
    1 ∉ (Base.publish Base.s_view "cam" true).2.closed := by decide

/-- C3 amended: a second Publish for the same channel closes the previous
record's publisher connection and installs a fresh empty record, so the
registry maps the channel only to the second publisher; the bound viewer
is not closed by Publish itself.  In src/server.py the old viewer is
closed later by the old publisher's terminal state-change cascade, whose
compare-and-remove leaves the new record in place; in src/main/server.py
that cascade instead crashes with UnboundLocalError — the registry
compare fails once the new record is installed — and leaves the state
unchanged, so it does not close the old viewer either. -/
theorem publish_replace_amended :
    (∀ (s : Base.St) (cid : ChannelId) (oldId : ConnId) (r : Base.Rec) (negOk : Bool),
      alookup s.publishers cid = some oldId →
      hlookup s.recs oldId = some r →
      oldId < s.nextPc →
      oldId ∈ (Base.publish s cid negOk).2.closed ∧
      alookup (Base.publish s cid negOk).2.publishers cid = some s.nextPc ∧
      hlookup (Base.publish s cid negOk).2.recs s.nextPc = some ⟨s.nextPc, none, none⟩ ∧
      (∀ v, r.viewer_pc = some v → v ∉ s.closed → v ≠ oldId →
        v ∉ (Base.publish s cid negOk).2.closed) ∧
      (∀ v, r.viewer_pc = some v →
        v ∈ (Base.pubOnState (Base.publish s cid negOk).2 cid oldId .closed).closed) ∧
      alookup (Base.pubOnState (Base.publish s cid negOk).2 cid oldId .closed).publishers
        cid = some s.nextPc) ∧
    (∀ (s : Main.St) (cid : ChannelId) (oldId : ConnId) (r : Main.Rec) (negOk : Bool),
      alookup s.publishers cid = some oldId →
      hlookup s.recs oldId = some r →
      oldId < s.nextPc →
      oldId ∈ (Main.publish s cid negOk).2.closed ∧
      alookup (Main.publish s cid negOk).2.publishers cid = some s.nextPc ∧
      hlookup (Main.publish s cid negOk).2.recs s.nextPc =
        some ⟨s.nextPc, none, none, none⟩ ∧
      (∀ v, r.viewer_pc = some v → v ∉ s.closed → v ≠ oldId →
        v ∉ (Main.publish s cid negOk).2.closed) ∧
      (∀ st, ConnState.isTerminal st = true →
        Main.pubOnState (Main.publish s cid negOk).2 cid oldId st =
          (.error .unboundLocal, (Main.publish s cid negOk).2))) := by
  refine ⟨?_, ?_⟩
  case refine_2 =>
    intro s cid oldId r negOk h1 h2 h3
    have hne : oldId ≠ s.nextPc := Nat.ne_of_lt h3
    have hpub2 : (Main.publish s cid negOk).2 =
        { s with
          closed := sinsert oldId s.closed,
          recs := hset s.recs s.nextPc ⟨s.nextPc, none, none, none⟩,
          publishers := aset (aremove s.publishers cid) cid s.nextPc,
          nextPc := s.nextPc + 1 } := by
      cases negOk <;> simp [Main.publish, h1]
    have hreg : alookup (aset (aremove s.publishers cid) cid s.nextPc) cid =
        some s.nextPc := alookup_aset_self _ _ _
    have hnotold : ¬(alookup (aset (aremove s.publishers cid) cid s.nextPc) cid =
        some oldId) := by
      rw [hreg]
      intro e
      exact hne (Option.some.inj e).symm
    refine ⟨?_, ?_, ?_, ?_, ?_⟩
    · rw [hpub2]
      exact mem_sinsert_self oldId _
    · rw [hpub2]
      exact hreg
    · rw [hpub2]
      exact hlookup_hset_self _ _ _
    · intro v hv hv2 hv3
      rw [hpub2]
      rw [mem_sinsert_iff]
      rintro (h | h)
      · exact hv3 h
      · exact hv2 h
    · intro st ht
      rw [hpub2]
      simp [Main.pubOnState, ht, hnotold]
  intro s cid oldId r negOk h1 h2 h3
  have hne : oldId ≠ s.nextPc := Nat.ne_of_lt h3
  have hpub2 : (Base.publish s cid negOk).2 =
      { s with
        closed := sinsert oldId s.closed,
        recs := hset s.recs s.nextPc ⟨s.nextPc, none, none⟩,
        publishers := aset s.publishers cid s.nextPc,
        nextPc := s.nextPc + 1 } := by
    cases negOk <;> simp [Base.publish, h1]
  have hreg : alookup (aset s.publishers cid s.nextPc) cid = some s.nextPc :=
    alookup_aset_self _ _ _
  have hnotold : ¬(alookup (aset s.publishers cid s.nextPc) cid = some oldId) := by
    rw [hreg]
    intro e
    exact hne (Option.some.inj e).symm
  have hrecold : hlookup (hset s.recs s.nextPc ⟨s.nextPc, none, none⟩) oldId = some r := by
    rw [hlookup_hset_ne _ _ _ _ hne]
    exact h2
  refine ⟨?_, ?_, ?_, ?_, ?_, ?_⟩
  · rw [hpub2]
    exact mem_sinsert_self oldId _
  · rw [hpub2]
    exact hreg
  · rw [hpub2]
    exact hlookup_hset_self _ _ _
  · intro v hv hv2 hv3
    rw [hpub2]
    rw [mem_sinsert_iff]
    rintro (h | h)
    · exact hv3 h
    · exact hv2 h
  · intro v hv
    rw [hpub2]
    simp only [Base.pubOnState, ConnState.isTerminal, if_true, hnotold, if_false,
      hrecold, hv]
    exact mem_sinsert_of_mem _ (mem_sinsert_self v _)
  · rw [hpub2]
    simp only [Base.pubOnState, ConnState.isTerminal, if_true, hnotold, if_false,
      hrecold]
    cases hv : r.viewer_pc <;> simp [hreg]

/-- Witness for C3's amended theorem at concrete inputs: the base
fixture (channel cam, publisher 0, viewer 1; the second publish creates
connection 2 and the cascade then closes viewer 1) and the main fixture
s_viewed (same setup; the second publish creates connection 2 and the
cascade crashes with the state unchanged). -/
theorem publish_replace_amended_witness :
    (0 ∈ (Base.publish Base.s_view "cam" true).2.closed ∧
     alookup (Base.publish Base.s_view "cam" true).2.publishers "cam" = some 2 ∧
     hlookup (Base.publish Base.s_view "cam" true).2.recs 2 = some ⟨2, none, none⟩ ∧
     (∀ v, (⟨0, some 0, some 1⟩ : Base.Rec).viewer_pc = some v →
       v ∉ Base.s_view.closed → v ≠ 0 →
       v ∉ (Base.publish Base.s_view "cam" true).2.closed) ∧
     (∀ v, (⟨0, some 0, some 1⟩ : Base.Rec).viewer_pc = some v →
       v ∈ (Base.pubOnState (Base.publish Base.s_view "cam" true).2 "cam" 0
         .closed).closed) ∧
     alookup (Base.pubOnState (Base.publish Base.s_view "cam" true).2 "cam" 0
       .closed).publishers "cam" = some 2) ∧
    (0 ∈ (Main.publish Main.s_viewed "cam" true).2.closed ∧
     alookup (Main.publish Main.s_viewed "cam" true).2.publishers "cam" = some 2 ∧
     hlookup (Main.publish Main.s_viewed "cam" true).2.recs 2 =
       some ⟨2, none, none, none⟩ ∧
     (∀ v, (⟨0, some 2, some 0, some 1⟩ : Main.Rec).viewer_pc = some v →
       v ∉ Main.s_viewed.closed → v ≠ 0 →
       v ∉ (Main.publish Main.s_viewed "cam" true).2.closed) ∧
     (∀ st, ConnState.isTerminal st = true →
       Main.pubOnState (Main.publish Main.s_viewed "cam" true).2 "cam" 0 st =
         (.error .unboundLocal, (Main.publish Main.s_viewed "cam" true).2))) :=
  ⟨publish_replace_amended.1 Base.s_view "cam" 0 ⟨0, some 0, some 1⟩ true
      (by decide) (by decide) (by decide),
   publish_replace_amended.2 Main.s_viewed "cam" 0 ⟨0, some 2, some 0, some 1⟩ true
      (by decide) (by decide) (by decide)⟩

/-- C4 counterexample: the locking discipline does not hold on every
path: the force-unlock endpoint of src/main/server.py awaits the viewer
connection's close while holding the record's lock (lines 250-254), and
the track handler of src/server.py writes the record's media field with
no lock held (line 100). -/
theorem lock_discipline_cex :
    (Main.forceUnlockSegs.any fun g => g.lockedSuspend) = true ∧
    (Base.onTrackSegs.any fun g => g.unguarded) = true := by decide

/-- C4 amended: the discipline holds only for the viewer slot on the
/viewer paths: there every touch of viewer_pc is under the record's lock
and no await sits inside a lock body in src/server.py (its /publish,
/viewer, track and both state-change paths hold no lock across any
suspension point); but the publisher's state-change handler reads the
viewer slot with no lock, the media fields are read and written with no
lock on the track and /viewer paths of both variants, and the main
variant's force-unlock awaits a close while holding the record lock. -/
theorem lock_discipline_amended :
    ((Base.publishSegs ++ Base.viewerSegs ++ Base.pubOnStateSegs ++
      Base.onTrackSegs ++ Base.viewerOnStateSegs).all fun g => !g.lockedSuspend) = true ∧
    (Base.viewerSegs.all fun g => !g.touchesSlot || g.lockHeld) = true ∧
    (Base.viewerOnStateSegs.all fun g => !g.touchesSlot || g.lockHeld) = true ∧
    (Main.viewerSegs.all fun g => !g.touchesSlot || g.lockHeld) = true ∧
    (Base.pubOnStateSegs.any fun g => !g.lockHeld && g.touchesSlot) = true ∧
    (Base.viewerSegs.any fun g => !g.lockHeld && g.touchesMedia) = true ∧
    (Main.viewerSegs.any fun g => !g.lockHeld && g.touchesMedia) = true ∧
    (Base.onTrackSegs.any fun g => !g.lockHeld && g.touchesMedia) = true ∧
    (Main.onTrackSegs.any fun g => !g.lockHeld && g.touchesMedia) = true ∧
    (Main.forceUnlockSegs.any fun g => g.lockedSuspend) = true := by decide

/-- C5 counterexample: negotiation failure is not handled at all.  On the
empty state a Publish("cam") whose SDP processing fails leaves the fresh
record 0 registered (no teardown, the exception escapes); on the fixture
with media, a ViewerConnect("cam") whose SDP processing fails leaves the
reserved slot occupied by connection 1 and does not close it. -/
theorem negotiation_failure_cex :
    Base.publish Base.init "cam" false = (.error .negotiationFailure, Base.s_pub) ∧
    alookup Base.s_pub.publishers "cam" = some 0 ∧
    Base.viewer Base.s_track "cam" false = (.error .negotiationFailure, Base.s_view) ∧
    (hlookup Base.s_view.recs 0).map Base.Rec.viewer_pc = some (some 1) ∧
    1 ∉ Base.s_view.closed := by decide

/-- C5 amended: when SDP negotiation fails, the exception escapes the
endpoint uncaught (an HTTP 500, not a coordinator NegotiationError): a
failed Publish leaves the newly installed empty record registered under
the channel, and a failed ViewerConnect (pre-check passed, slot free)
leaves the slot occupied by the new connection without closing anything
— cleanup is left to the connections' own state-change handlers. -/
theorem negotiation_failure_amended :
    (∀ (s : Base.St) (cid : ChannelId),
      (Base.publish s cid false).1 = .error .negotiationFailure ∧
      alookup (Base.publish s cid false).2.publishers cid = some s.nextPc ∧
      hlookup (Base.publish s cid false).2.recs s.nextPc =
        some ⟨s.nextPc, none, none⟩) ∧
    (∀ (s : Base.St) (target : ChannelId) (recId : ConnId) (pub : Base.Rec)
        (tr : TrackId),
      alookup s.publishers target = some recId →
      hlookup s.recs recId = some pub →
      pub.track = some tr →
      pub.viewer_pc = none →
      (Base.viewer s target false).1 = .error .negotiationFailure ∧
      (hlookup (Base.viewer s target false).2.recs recId).map Base.Rec.viewer_pc =
        some (some s.nextPc) ∧
      (Base.viewer s target false).2.closed = s.closed) := by
  constructor
  · intro s cid
    cases h : alookup s.publishers cid <;>
      simp [Base.publish, h, alookup_aset_self, hlookup_hset_self]
  · intro s target recId pub tr h1 h2 h3 h4
    simp [Base.viewer, h1, h2, h3, h4, Base.viewerLockBody, hlookup_hset_self]

/-- C6 counterexample: in src/server.py the relay view is not recreated
per binding: the first viewer of channel cam is handed view 0, and after
its teardown the next viewer is handed the very same view 0 (the view
subscribed once at track arrival and stored in the record). -/
theorem relay_view_reuse_cex :
    (Base.viewer Base.s_track "cam" true).1 = .ok (1, 0) ∧
    (Base.viewer Base.s_clear "cam" true).1 = .ok (2, 0) := by decide

/-- C6 amended: only the main variant recreates the relay view: a
successful /viewer of src/main/server.py attaches a view freshly drawn
from the relay (its id is new, so it differs from every view or track
stored in any record before the call, given that all stored ids are below
the fresh-id counter); the base variant reuses the single stored view. -/
theorem relay_view_fresh_main_amended :
    ∀ (s : Main.St) (target : ChannelId) (pc : ConnId) (tv : TrackId) (s2 : Main.St),
      Main.tracksBelow s = true →
      Main.viewer s target true = (.ok (pc, tv), s2) →
      ∀ (recId : ConnId) (r : Main.Rec), hlookup s.recs recId = some r →
        r.track ≠ some tv ∧ r.original_track ≠ some tv := by
  intro s target pc tv s2 hb hv recId r hr
  have htv : tv = s.nextTrack := by
    unfold Main.viewer at hv
    split at hv
    · simp at hv
    next rid hpre =>
      split at hv
      next e s1 hres => simp at hv
      next pc2 s1 hres =>
        split at hv
        next e s3 hat => simp at hv
        next tv2 s3 hat =>
          simp only [Prod.mk.injEq, Except.ok.injEq] at hv
          have e1 : tv2 = s1.nextTrack := Main.attach_ok_fresh hat
          have e2 : s1.nextTrack = s.nextTrack := by
            have e3 := Main.reserve_nextTrack s rid
            rw [hres] at e3
            exact e3
          rw [← hv.1.2, e1, e2]
  have hmem := hlookup_mem hr
  have hall := List.all_eq_true.mp hb _ hmem
  rw [Bool.and_eq_true] at hall
  constructor
  · intro he
    have hlt : Main.trackBelow (some tv) s.nextTrack = true := he ▸ hall.1
    rw [htv] at hlt
    simp [Main.trackBelow] at hlt
  · intro he
    have hlt : Main.trackBelow (some tv) s.nextTrack = true := he ▸ hall.2
    rw [htv] at hlt
    simp [Main.trackBelow] at hlt

/-- Witness for C6's amended theorem: on the fixture with raw track 0 and
stored view 1, a successful viewer attaches the fresh view 2, which is
neither the record's stored view nor its raw track. -/
theorem relay_view_fresh_main_amended_witness :
    (⟨0, some 1, some 0, none⟩ : Main.Rec).track ≠ some 2 ∧
    (⟨0, some 1, some 0, none⟩ : Main.Rec).original_track ≠ some 2 :=
  relay_view_fresh_main_amended Main.s_track "cam" 1 2 Main.s_viewed (by decide)
    (by decide) 0 ⟨0, some 1, some 0, none⟩ (by decide)

/-- C7: in both variants, /viewer fails with the 503 no-publisher error
exactly when the pre-check condition holds — no record for the target, or
its media field empty — and in that case the module state is unchanged;
in particular any /viewer on the empty initial state (before any Publish)
fails so and changes nothing. -/
theorem no_such_publisher_iff :
    (∀ (s : Base.St) (target : ChannelId) (negOk : Bool),
      ((Base.viewer s target negOk).1 = .error .noSuchPublisher ↔
        Base.noMedia s target = true)) ∧
    (∀ (s : Base.St) (target : ChannelId) (negOk : Bool),
      Base.noMedia s target = true →
      Base.viewer s target negOk = (.error .noSuchPublisher, s)) ∧
    (∀ (s : Main.St) (target : ChannelId) (negOk : Bool),
      ((Main.viewer s target negOk).1 = .error .noSuchPublisher ↔
        Main.viewerPre s target = none)) ∧
    (∀ (s : Main.St) (target : ChannelId) (negOk : Bool),
      Main.viewerPre s target = none →
      Main.viewer s target negOk = (.error .noSuchPublisher, s)) ∧
    (∀ (target : ChannelId) (negOk : Bool),
      Base.viewer Base.init target negOk = (.error .noSuchPublisher, Base.init) ∧
      Main.viewer Main.init target negOk = (.error .noSuchPublisher, Main.init)) := by
  have hbase : ∀ (s : Base.St) (target : ChannelId) (negOk : Bool),
      ((Base.viewer s target negOk).1 = .error .noSuchPublisher ↔
        Base.noMedia s target = true) ∧
      (Base.noMedia s target = true →
        Base.viewer s target negOk = (.error .noSuchPublisher, s)) := by
    intro s target negOk
    unfold Base.viewer Base.noMedia
    cases h1 : alookup s.publishers target with
    | none => simp [h1]
    | some recId =>
      cases h2 : hlookup s.recs recId with
      | none => simp [h1, h2]
      | some pub =>
        cases h3 : pub.track with
        | none => simp [h1, h2, h3]
        | some tr =>
          cases h4 : pub.viewer_pc with
          | none => cases negOk <;> simp [Base.viewerLockBody, h1, h2, h3, h4]
          | some v => simp [Base.viewerLockBody, h1, h2, h3, h4]
  have hmain : ∀ (s : Main.St) (target : ChannelId) (negOk : Bool),
      ((Main.viewer s target negOk).1 = .error .noSuchPublisher ↔
        Main.viewerPre s target = none) ∧
      (Main.viewerPre s target = none →
        Main.viewer s target negOk = (.error .noSuchPublisher, s)) := by
    intro s target negOk
    cases hpre : Main.viewerPre s target with
    | none => simp [Main.viewer, hpre]
    | some rid =>
      have hrec : ∃ r, hlookup s.recs rid = some r ∧ r.track ≠ none := by
        unfold Main.viewerPre at hpre
        cases q1 : alookup s.publishers target with
        | none => simp [q1] at hpre
        | some rid2 =>
          cases q2 : hlookup s.recs rid2 with
          | none => simp [q1, q2] at hpre
          | some r =>
            by_cases q3 : r.track = none
            · simp [q1, q2, q3] at hpre
            · simp [q1, q2, q3] at hpre
              exact ⟨r, by rw [← hpre]; exact q2, q3⟩
      obtain ⟨r, hr, htr⟩ := hrec
      cases hvp : r.viewer_pc with
      | some v =>
        simp [Main.viewer, hpre, Main.viewerReserve, hr, hvp]
      | none =>
        cases ho : r.original_track with
        | none =>
          simp [Main.viewer, hpre, Main.viewerReserve, hr, hvp,
            Main.viewerAttach, hlookup_hset_self, ho]
        | some t0 =>
          cases negOk <;>
            simp [Main.viewer, hpre, Main.viewerReserve, hr, hvp,
              Main.viewerAttach, hlookup_hset_self, ho]
  refine ⟨fun s t n => (hbase s t n).1, fun s t n => (hbase s t n).2,
    fun s t n => (hmain s t n).1, fun s t n => (hmain s t n).2,
    fun t n => ⟨(hbase Base.init t n).2 rfl, (hmain Main.init t n).2 rfl⟩⟩

/-- C8 (code bug): teardown is not idempotent in src/main/server.py.  On
the fixture (publisher 0 of channel cam with media), the first terminal
state-change delivery succeeds, but a second delivery of the same
notification crashes with UnboundLocalError: the compare fails since the
record is already popped, and `if pub:` (line 116) reads the local `pub`
that only the compare branch would have bound — instead of the
idempotent no-op the claim states.  (The base variant's handler, which
pops without rebinding `pub`, is idempotent.) -/
theorem double_terminal_delivery_bug :
    (Main.pubOnState Main.s_track "cam" 0 .failed).1 = .ok () ∧
    Main.pubOnState Main.s_dead "cam" 0 .failed = (.error .unboundLocal, Main.s_dead) := by
  decide

/-- C9: force-unlock on an unknown channel fails 404 with the state
unchanged; on a known channel it succeeds, closes the bound viewer if one
exists, clears only the viewer slot — the record keeps its publisher
connection and both media fields, the registry and the stopped-tracks set
are untouched — and a /viewer for that channel issued on the resulting
state is never rejected with 409 ViewerSlotTaken. -/
theorem force_unlock_spec :
    (∀ (s : Main.St) (target : ChannelId),
      alookup s.publishers target = none →
      Main.force_unlock s target = (.error .noSuchChannel, s)) ∧
    (∀ (s : Main.St) (target : ChannelId) (recId : ConnId) (r : Main.Rec),
      alookup s.publishers target = some recId →
      hlookup s.recs recId = some r →
      (Main.force_unlock s target).1 = .ok () ∧
      hlookup (Main.force_unlock s target).2.recs recId =
        some ⟨r.pc, r.track, r.original_track, none⟩ ∧
      (∀ v, r.viewer_pc = some v → v ∈ (Main.force_unlock s target).2.closed) ∧
      (Main.force_unlock s target).2.publishers = s.publishers ∧
      (Main.force_unlock s target).2.stopped = s.stopped ∧
      (∀ negOk, (Main.viewer (Main.force_unlock s target).2 target negOk).1 ≠
        .error .viewerSlotTaken)) := by
  constructor
  · intro s target h
    simp [Main.force_unlock, h]
  · intro s target recId r h1 h2
    cases hv : r.viewer_pc with
    | none =>
      have hres : Main.force_unlock s target =
          (.ok (), { s with recs := hset s.recs recId { r with viewer_pc := none } }) := by
        simp [Main.force_unlock, h1, h2, hv]
      rw [hres]
      refine ⟨rfl, hlookup_hset_self _ _ _, ?_, rfl, rfl, ?_⟩
      · intro v hv2
        cases hv2
      · intro negOk
        exact Main.viewer_no_conflict _ target negOk recId { r with viewer_pc := none }
          h1 (hlookup_hset_self _ _ _) rfl
    | some v0 =>
      have hres : Main.force_unlock s target =
          (.ok (), { s with
            closed := sinsert v0 s.closed,
            viewer_pcs := sremove v0 s.viewer_pcs,
            recs := hset s.recs recId { r with viewer_pc := none } }) := by
        simp [Main.force_unlock, h1, h2, hv]
      rw [hres]
      refine ⟨rfl, hlookup_hset_self _ _ _, ?_, rfl, rfl, ?_⟩
      · intro v hv2
        cases hv2
        exact mem_sinsert_self _ _
      · intro negOk
        exact Main.viewer_no_conflict _ target negOk recId { r with viewer_pc := none }
          h1 (hlookup_hset_self _ _ _) rfl

/-- C10: in src/main/server.py the media presence is checked only by the
pre-lock check and never re-checked after the lock: on the fixture with
media present the pre-check passes, and in the execution where the
publisher's track ends before the lock body runs (schedulable, since
acquiring the contended record lock is a suspension point — e.g. while a
force-unlock holds the lock across its awaited close), the request still
reserves the slot on the cleared state and the attach step then
dereferences the absent media source (relay.subscribe of None) instead of
failing with NoSuchPublisher — leaving the reserved viewer slot occupied
by connection 1, which the failure does not release. -/
theorem viewer_stale_media_race :
    Main.viewerPre Main.s_track "cam" = some 0 ∧
    (Main.viewerReserve Main.s_ended 0).1 = .ok 1 ∧
    Main.viewerAttach (Main.viewerReserve Main.s_ended 0).2 0 true =
      (.error .noneSubscribe, (Main.viewerReserve Main.s_ended 0).2) ∧
    (hlookup (Main.viewerReserve Main.s_ended 0).2.recs 0).map Main.Rec.viewer_pc =
      some (some 1) := by decide

end WebCam
